import Mathlib

/-!
Verification of the span value model and interval algebra of
`text_extensions_for_pandas` (files `array/char_span.py` and `algebra.py`).

Python integers and numpy integer arrays are embedded as `Int` / `List Int`;
Python strings as `String`; a raised exception as `Except.error`.
The Python object identity `id(x)` used by the equivalence cache is embedded
as an explicit `aid : Nat` field; distinct live objects have distinct `aid`s.
-/

/-- `CharSpan.NULL_OFFSET_VALUE`: begin/end value that indicates "not a span". -/
def NULL_OFFSET_VALUE : Int := -1

/-- A single span with character offsets over one target text
(the fields of `CharSpan`: `_text`, `_begin`, `_end`).  The field `end_`
embeds the Python attribute `end` (`end` is reserved in Lean). -/
structure CharSpan where
  target_text : String
  begin : Int
  end_ : Int
deriving DecidableEq, Repr

/-- `CharSpan.__init__`: validation of the offsets.  Mirrors the `if`/`elif`
chain: a begin of `NULL_OFFSET_VALUE` must be paired with the same end; a
negative begin or end raises; an end beyond the text length raises; every
other offset pair is accepted. -/
def CharSpan.init (text : String) (b e : Int) : Except String CharSpan :=
  if NULL_OFFSET_VALUE = b then
    if NULL_OFFSET_VALUE ≠ e then
      Except.error "Begin offset with special null value must be paired with an end offset of the same value"
    else
      Except.ok ⟨text, b, e⟩
  else if b < 0 then
    Except.error "begin must be >= 0"
  else if e < 0 then
    Except.error "end must be >= 0"
  else if e > (text.length : Int) then
    Except.error "end must be less than length of target string"
  else
    Except.ok ⟨text, b, e⟩

/-- A column of character spans over one target text: the fields `_text`,
`_begins`, `_ends`, `_version`, `_equivalent_arrays`, `_equiv_array_versions`
and `_hash` of `CharSpanArray`.  `aid` embeds the Python object identity
`id(self)` consulted by the equivalence cache. -/
structure CharSpanArray where
  aid : Nat
  target_text : String
  begins : List Int
  ends : List Int
  version : Nat
  equivalent_arrays : List Nat
  equiv_array_versions : List Nat
  hash_ : Option Int
deriving DecidableEq, Repr

/-- `CharSpanArray.__init__`: a freshly constructed array has version 0, an
empty equivalence cache and no memoized hash. -/
def CharSpanArray.mk0 (aid : Nat) (text : String) (begins ends : List Int) : CharSpanArray :=
  ⟨aid, text, begins, ends, 0, [], [], none⟩

/-- `CharSpanArray.__len__` (`len(self._begins)`). -/
def CharSpanArray.length (a : CharSpanArray) : Nat := a.begins.length

/-- `CharSpanArray.__getitem__` with a slice `lo:hi`: builds a fresh
`CharSpanArray(self._text, self._begins[item], self._ends[item])`. -/
def CharSpanArray.getitem_slice (a : CharSpanArray) (lo hi : Nat) (newId : Nat) : CharSpanArray :=
  CharSpanArray.mk0 newId a.target_text
    ((a.begins.drop lo).take (hi - lo)) ((a.ends.drop lo).take (hi - lo))

/-- `CharSpanArray.increment_version`: empties both cache lists, clears the
memoized hash and increments the counter. -/
def CharSpanArray.increment_version (a : CharSpanArray) : CharSpanArray :=
  { a with equivalent_arrays := [], equiv_array_versions := [], hash_ := none,
           version := a.version + 1 }

/-- `CharSpanArray.__setitem__` with a single integer key and a `CharSpan`
(or `None`) value; ends by calling `increment_version`.  The branches that
raise for an ndarray key or a value of the wrong type are outside this model
(the Lean types exclude them). -/
def CharSpanArray.setitem (a : CharSpanArray) (key : Nat) (value : Option CharSpan) :
    CharSpanArray :=
  let a2 : CharSpanArray :=
    match value with
    | none => { a with begins := a.begins.set key NULL_OFFSET_VALUE,
                       ends := a.ends.set key NULL_OFFSET_VALUE }
    | some v => { a with begins := a.begins.set key v.begin,
                         ends := a.ends.set key v.end_ }
  a2.increment_version

/-- `CharSpanArray.__eq__` against a scalar `CharSpan`: starts from an
all-True mask and uses boolean indexed assignment.  `mask[text_ne] = False`
with the scalar boolean `text_ne` clears the whole mask when the target texts
differ; the two offset comparisons clear individual positions. -/
def CharSpanArray.eq_span (a : CharSpanArray) (s : CharSpan) : List Bool :=
  let mask := List.replicate a.length true
  let mask := if a.target_text ≠ s.target_text then List.replicate a.length false else mask
  let mask := List.zipWith (fun m b => if b ≠ s.begin then false else m) mask a.begins
  List.zipWith (fun m e => if e ≠ s.end_ then false else m) mask a.ends

/-- `CharSpanArray.__eq__` against another `CharSpanArray`.  Transcribed
verbatim from the source, including the final
`np.logical_and(self.begin == self.begin, self.end == self.end)`,
which compares this array's offsets against themselves. -/
def CharSpanArray.eq_array (a other : CharSpanArray) : Except String (List Bool) :=
  if a.length ≠ other.length then
    Except.error "Can't compare arrays of differing lengths"
  else if a.target_text ≠ other.target_text then
    Except.ok (List.replicate a.length false)
  else
    Except.ok (List.zipWith (fun x y => x && y)
      (List.zipWith (fun b b2 : Int => decide (b = b2)) a.begins a.begins)
      (List.zipWith (fun e e2 : Int => decide (e = e2)) a.ends a.ends))

/-- The possible second operands of the comparison dunder methods: a scalar
span, a span array, or a value of any other type (the `else` branch of the
`isinstance` dispatch). -/
inductive CmpOperand where
  | span (s : CharSpan)
  | array (a : CharSpanArray)
  | other
deriving Repr

/-- Result of a Python comparison dunder: a plain bool, a boolean mask, or a
raised exception. -/
inductive CmpResult where
  | bool (b : Bool)
  | mask (m : List Bool)
  | error (msg : String)
deriving DecidableEq, Repr

/-- Whether a `CmpResult` is a raised exception. -/
def CmpResult.isError : CmpResult → Bool
  | .error _ => true
  | _ => false

/-- `CharSpan.__eq__`: span operands compare begin, end and target text;
an array operand delegates to the array's `__eq__`; any other type compares
unequal (returns `False`, does not raise). -/
def CharSpan.eq_op (self : CharSpan) : CmpOperand → CmpResult
  | .span s => .bool (decide (self.begin = s.begin ∧ self.end_ = s.end_ ∧
      self.target_text = s.target_text))
  | .array a => .mask (a.eq_span self)
  | .other => .bool false

/-- `CharSpanArray.__eq__` dispatch on the operand type: scalar span and
array operands produce a mask; any other type raises `ValueError`. -/
def CharSpanArray.eq_op (self : CharSpanArray) : CmpOperand → CmpResult
  | .span s => .mask (self.eq_span s)
  | .array a =>
      match self.eq_array a with
      | .ok m => .mask m
      | .error msg => .error msg
  | .other => .error "Don't know how to compare objects of these types"

/-- `CharSpan.__lt__`: `self.end <= other.begin` for a span or array operand
(no comparison of target texts); any other type raises `ValueError`. -/
def CharSpan.lt_op (self : CharSpan) : CmpOperand → CmpResult
  | .span s => .bool (decide (self.end_ ≤ s.begin))
  | .array a => .mask (a.begins.map (fun b => decide (self.end_ ≤ b)))
  | .other => .error "Less-than relationship not defined"

/-- `CharSpanArray.__lt__`: elementwise `self.end <= other.begin` for a span
or equal-length array operand (no comparison of target texts); any other type
raises `ValueError`. -/
def CharSpanArray.lt_op (self : CharSpanArray) : CmpOperand → CmpResult
  | .span s => .mask (self.ends.map (fun e => decide (e ≤ s.begin)))
  | .array a => .mask (List.zipWith (fun e b : Int => decide (e ≤ b)) self.ends a.begins)
  | .other => .error "'<' relationship not defined"

/-- The branches of `CharSpanArray.equals` after the cache lookup.  The
Python code stores the lookup result in `cache_ix` (`-1` when absent, here
`none`): a cached entry whose version still matches is a cached "equal"
verdict; otherwise the structural comparison runs, a stale entry is deleted
on a "not equal" result and updated (or a new entry appended) on an "equal"
result. -/
def CharSpanArray.equals_aux (self other : CharSpanArray) : Option Nat → Bool × CharSpanArray
  | some ix =>
      if self.equiv_array_versions.getD ix 0 = other.version then
        (true, self)
      else if self.target_text ≠ other.target_text ∨ self.begins ≠ other.begins ∨
          self.ends ≠ other.ends then
        (false, { self with equivalent_arrays := self.equivalent_arrays.eraseIdx ix,
                            equiv_array_versions := self.equiv_array_versions.eraseIdx ix })
      else
        (true, { self with equiv_array_versions :=
                  self.equiv_array_versions.set ix other.version })
  | none =>
      if self.target_text ≠ other.target_text ∨ self.begins ≠ other.begins ∨
          self.ends ≠ other.ends then
        (false, self)
      else
        (true, { self with equivalent_arrays := self.equivalent_arrays ++ [other.aid],
                           equiv_array_versions := self.equiv_array_versions ++ [other.version] })

/-- `CharSpanArray.equals`: deep structural equality backed by the
equivalence cache.  `self is other` short-circuits to `True`; otherwise the
cache index of `id(other)` is looked up and `equals_aux` finishes.  Returns
the verdict together with the possibly updated receiver state (the Python
method mutates `self`'s cache lists in place). -/
def CharSpanArray.equals (self other : CharSpanArray) : Bool × CharSpanArray :=
  if self.aid = other.aid then
    (true, self)
  else
    self.equals_aux other (self.equivalent_arrays.findIdx? (fun x => x = other.aid))

/-- Specification-side predicate: structural equality of two span arrays
(same target text, same begin sequence, same end sequence). -/
def structEqb (a b : CharSpanArray) : Bool :=
  decide (a.target_text = b.target_text ∧ a.begins = b.begins ∧ a.ends = b.ends)

/-- `CharSpanArray._concat_same_type`: all inputs must share one target text
(the Python code forms the set of texts and raises unless it has size 1);
otherwise the begin and end sequences are concatenated into a fresh array. -/
def CharSpanArray.concat_same_type (to_concat : List CharSpanArray) (newId : Nat) :
    Except String CharSpanArray :=
  match to_concat with
  | [] => Except.error "CharSpans must all be over the same target text"
  | a :: rest =>
      if rest.all (fun x => x.target_text == a.target_text) then
        Except.ok (CharSpanArray.mk0 newId a.target_text
          (((a :: rest).map (fun x => x.begins)).flatten)
          (((a :: rest).map (fun x => x.ends)).flatten))
      else
        Except.error "CharSpans must all be over the same target text"

/-- `np.min` over an integer array: raises on a zero-size array. -/
def np_min : List Int → Except String Int
  | [] => Except.error "zero-size array to reduction operation minimum"
  | x :: xs => Except.ok (xs.foldl min x)

/-- `np.max` over an integer array: raises on a zero-size array. -/
def np_max : List Int → Except String Int
  | [] => Except.error "zero-size array to reduction operation maximum"
  | x :: xs => Except.ok (xs.foldl max x)

/-- `CharSpanArray._reduce`: the name `"sum"` is redefined as "combine",
returning `CharSpan(self.target_text, np.min(self.begin), np.max(self.end))`;
the result goes through `CharSpan.__init__` and therefore through its offset
validation (so a null-sentinel minimum begin paired with a non-null maximum
end raises `ValueError`); any other aggregation name raises `TypeError`. -/
def CharSpanArray.reduce (self : CharSpanArray) (name : String) : Except String CharSpan :=
  if name = "sum" then
    match np_min self.begins, np_max self.ends with
    | Except.ok b, Except.ok e => CharSpan.init self.target_text b e
    | Except.error msg, _ => Except.error msg
    | _, Except.error msg => Except.error msg
  else
    Except.error "aggregation not supported on a series backed by a CharSpanArray"

/-- Modelled from the spec: `token_span.py` is not among the provided source
files.  Per the spec, a `TokenSpanArray` is backed by one `CharSpanArray`
token table plus two equal-length integer sequences of token begin/end
indices. -/
structure TokenSpanArray where
  tokens : CharSpanArray
  begin_token : List Int
  end_token : List Int
deriving DecidableEq, Repr

/-- Modelled from the spec: a single `TokenSpan` is a token table together
with begin/end token indices. -/
structure TokenSpan where
  tokens : CharSpanArray
  begin_token : Int
  end_token : Int
deriving DecidableEq, Repr

/-- Modelled from the spec: `token_span.py` is not among the source files.
Per the spec, `TokenSpan` construction validates like `CharSpan`
construction with the same null sentinel at the token-index level: a begin
token index of `NULL_OFFSET_VALUE` must be paired with the same end token
index, and negative token indices are rejected. -/
def TokenSpan.init (tokens : CharSpanArray) (b e : Int) : Except String TokenSpan :=
  if NULL_OFFSET_VALUE = b then
    if NULL_OFFSET_VALUE ≠ e then
      Except.error "Begin token index with special null value must be paired with an end token index of the same value"
    else
      Except.ok ⟨tokens, b, e⟩
  else if b < 0 then
    Except.error "begin token index must be >= 0"
  else if e < 0 then
    Except.error "end token index must be >= 0"
  else
    Except.ok ⟨tokens, b, e⟩

/-- The possible inputs of `combine_agg`: a series backed by a span array of
either kind, a DataFrame, a generic iterable, or anything else. -/
inductive AggArg where
  | tokenSeries (t : TokenSpanArray)
  | charSeries (a : CharSpanArray)
  | dataFrame
  | iterable
  | other

/-- `combine_agg` from `algebra.py`: for a series backed by a span array,
builds the span from the minimum begin to the maximum end through the
`TokenSpan` / `CharSpan` constructor (and therefore through its offset
validation); DataFrame and iterable inputs raise `NotImplementedError`;
anything else raises `ValueError`. -/
def combine_agg : AggArg → Except String (CharSpan ⊕ TokenSpan)
  | .tokenSeries t =>
      match np_min t.begin_token, np_max t.end_token with
      | Except.ok b, Except.ok e =>
          match TokenSpan.init t.tokens b e with
          | Except.ok s => Except.ok (Sum.inr s)
          | Except.error msg => Except.error msg
      | Except.error msg, _ => Except.error msg
      | _, Except.error msg => Except.error msg
  | .charSeries a =>
      match np_min a.begins, np_max a.ends with
      | Except.ok b, Except.ok e =>
          match CharSpan.init a.target_text b e with
          | Except.ok s => Except.ok (Sum.inl s)
          | Except.error msg => Except.error msg
      | Except.error msg, _ => Except.error msg
      | _, Except.error msg => Except.error msg
  | .dataFrame => Except.error "DataFrame input not yet implemented"
  | .iterable => Except.error "Iterable input not yet implemented"
  | .other => Except.error "Unexpected input type"

/-- The first merge of `extract_dict`:
`pd.merge(dictionary, toks_tmp, left_on="toks_0", right_on="normalized_text")`.
A dictionary row is a list of `Option String` (column `toks_j` holds `none`
for entries shorter than `j + 1`); `toks_tmp` pairs each token id with the
token's normalized covered text.  The merge keeps, in left order, every
(row, token id) pair whose first expected token equals the token's
normalized text, renaming `token_id` to `begin_token_id`. -/
def dict_first_merge (dictionary : List (List (Option String)))
    (toks_tmp : List (Nat × Option String)) : List (List (Option String) × Nat) :=
  dictionary.flatMap (fun row =>
    (toks_tmp.filter (fun t => t.2 == row.getD 0 none)).map (fun t => (row, t.1)))

/-- The `for match_len in range(1, max_entry_len)` loop of `extract_dict`.
At each length `m`: rows whose column `toks_m` is absent are completed
matches and are emitted as `(begin_token_id, begin_token_id + m)`; the
remaining rows are extended by merging token `begin_token_id + m` against
`toks_tmp` and keeping rows whose next normalized token equals `toks_m`. -/
def extract_dict_loop (toks_tmp : List (Nat × Option String)) :
    List Nat → List (List (Option String) × Nat) → List (Nat × Nat)
  | [], _ => []
  | m :: rest, ms =>
      let completed := ms.filter (fun r => (r.1.getD m none).isNone)
      let pending := ms.filter (fun r => !(r.1.getD m none).isNone)
      let extended := pending.flatMap (fun r =>
        (toks_tmp.filter (fun t => t.1 == r.2 + m)).filterMap (fun t =>
          if t.2 == r.1.getD m none then some (r.1, r.2) else none))
      completed.map (fun r => (r.2, r.2 + m)) ++ extract_dict_loop toks_tmp rest extended

/-- `extract_dict` from `algebra.py`, at the level of token begin/end index
pairs (the source wraps the resulting begin/end arrays in a
`TokenSpanArray` inside a one-column DataFrame).  `normalized_toks` is the
tokens' `normalized_covered_text`; `max_entry_len = len(dictionary.columns)`
is the (uniform) number of `toks_j` columns.  When the loop body never runs
(`max_entry_len <= 1`) the final `np.concatenate` of an empty list raises. -/
def extract_dict (normalized_toks : List (Option String))
    (dictionary : List (List (Option String))) : Except String (List (Nat × Nat)) :=
  let toks_tmp := (List.range normalized_toks.length).zip normalized_toks
  let ms := dict_first_merge dictionary toks_tmp
  let max_entry_len := (dictionary.headD []).length
  let lens := List.range' 1 (max_entry_len - 1)
  if lens = [] then
    Except.error "need at least one array to concatenate"
  else
    Except.ok (extract_dict_loop toks_tmp lens ms)

/-- `adjacent_join` from `algebra.py`, at the level of token begin/end index
pairs.  `outer` pairs each first-series span with its end token; `inner`
replicates the second series once per gap in `range(min_gap, max_gap + 1)`,
tagging each replica with `begin_token + gap`; `outer.merge(inner)` is the
equijoin on that shared `outer_end` column. -/
def adjacent_join (first second : TokenSpanArray) (min_gap max_gap : Int) :
    List ((Int × Int) × (Int × Int)) :=
  let outer := (first.begin_token.zip first.end_token).map (fun p => (p, p.2))
  let gaps := (List.range (max_gap - min_gap + 1).toNat).map (fun g => min_gap + (g : Int))
  let inner := gaps.flatMap (fun gap =>
    (second.begin_token.zip second.end_token).map (fun p => (p, p.1 + gap)))
  outer.flatMap (fun o => (inner.filter (fun i => i.2 == o.2)).map (fun i => (o.1, i.1)))

/-! ## Helper lemmas -/

/-- With an empty equivalence cache and distinct object identities, `equals`
reduces to the structural comparison. -/
theorem equals_of_empty_cache (A o : CharSpanArray) (hid : A.aid ≠ o.aid)
    (hc : A.equivalent_arrays = []) :
    (A.equals o).fst = structEqb A o := by
  have hnone : A.equivalent_arrays.findIdx? (fun x => x = o.aid) = none := by
    rw [hc]; rfl
  unfold CharSpanArray.equals
  rw [if_neg hid, hnone]
  simp only [CharSpanArray.equals_aux]
  unfold structEqb
  split_ifs with h
  · show false = decide (A.target_text = o.target_text ∧ A.begins = o.begins ∧ A.ends = o.ends)
    symm
    rw [decide_eq_false_iff_not]
    rintro ⟨h1, h2, h3⟩
    rcases h with h | h | h <;> contradiction
  · push_neg at h
    show true = decide (A.target_text = o.target_text ∧ A.begins = o.begins ∧ A.ends = o.ends)
    symm
    rw [decide_eq_true_iff]
    exact ⟨h.1, h.2.1, h.2.2⟩

/-- With a cached entry whose recorded version no longer matches the other
array's current version, `equals` reduces to the structural comparison. -/
theorem equals_of_stale_entry (b c : CharSpanArray) (ix : Nat) (hid : b.aid ≠ c.aid)
    (hfind : b.equivalent_arrays.findIdx? (fun x => x = c.aid) = some ix)
    (hver : b.equiv_array_versions.getD ix 0 ≠ c.version) :
    (b.equals c).fst = structEqb b c := by
  unfold CharSpanArray.equals
  rw [if_neg hid, hfind]
  simp only [CharSpanArray.equals_aux]
  rw [if_neg hver]
  unfold structEqb
  split_ifs with h
  · show false = decide (b.target_text = c.target_text ∧ b.begins = c.begins ∧ b.ends = c.ends)
    symm
    rw [decide_eq_false_iff_not]
    rintro ⟨h1, h2, h3⟩
    rcases h with h | h | h <;> contradiction
  · push_neg at h
    show true = decide (b.target_text = c.target_text ∧ b.begins = c.begins ∧ b.ends = c.ends)
    symm
    rw [decide_eq_true_iff]
    exact ⟨h.1, h.2.1, h.2.2⟩

theorem foldl_min_le_init (x : Int) (xs : List Int) : xs.foldl min x ≤ x := by
  induction xs generalizing x with
  | nil => exact le_refl x
  | cons y ys ih =>
    simp only [List.foldl_cons]
    exact le_trans (ih (min x y)) (min_le_left x y)

theorem foldl_min_mem (x : Int) (xs : List Int) : xs.foldl min x ∈ x :: xs := by
  induction xs generalizing x with
  | nil => simp
  | cons y ys ih =>
    simp only [List.foldl_cons]
    rcases List.mem_cons.mp (ih (min x y)) with h | h
    · rcases min_choice x y with hm | hm <;> rw [h, hm]
      · exact List.mem_cons_self x (y :: ys)
      · exact List.mem_cons_of_mem x (List.mem_cons_self y ys)
    · exact List.mem_cons_of_mem x (List.mem_cons_of_mem y h)

theorem foldl_min_le (x : Int) (xs : List Int) : ∀ y ∈ x :: xs, xs.foldl min x ≤ y := by
  induction xs generalizing x with
  | nil =>
    intro y hy
    rw [List.mem_singleton] at hy
    rw [hy]
    exact le_refl x
  | cons z zs ih =>
    intro y hy
    simp only [List.foldl_cons]
    rcases List.mem_cons.mp hy with h | h
    · rw [h]
      exact le_trans (foldl_min_le_init (min x z) zs) (min_le_left x z)
    · rcases List.mem_cons.mp h with h2 | h2
      · rw [h2]
        exact le_trans (foldl_min_le_init (min x z) zs) (min_le_right x z)
      · exact ih (min x z) y (List.mem_cons_of_mem (min x z) h2)

theorem le_foldl_max_init (x : Int) (xs : List Int) : x ≤ xs.foldl max x := by
  induction xs generalizing x with
  | nil => exact le_refl x
  | cons y ys ih =>
    simp only [List.foldl_cons]
    exact le_trans (le_max_left x y) (ih (max x y))

theorem foldl_max_mem (x : Int) (xs : List Int) : xs.foldl max x ∈ x :: xs := by
  induction xs generalizing x with
  | nil => simp
  | cons y ys ih =>
    simp only [List.foldl_cons]
    rcases List.mem_cons.mp (ih (max x y)) with h | h
    · rcases max_choice x y with hm | hm <;> rw [h, hm]
      · exact List.mem_cons_self x (y :: ys)
      · exact List.mem_cons_of_mem x (List.mem_cons_self y ys)
    · exact List.mem_cons_of_mem x (List.mem_cons_of_mem y h)

theorem foldl_max_le (x : Int) (xs : List Int) : ∀ y ∈ x :: xs, y ≤ xs.foldl max x := by
  induction xs generalizing x with
  | nil =>
    intro y hy
    rw [List.mem_singleton] at hy
    rw [hy]
    exact le_refl x
  | cons z zs ih =>
    intro y hy
    simp only [List.foldl_cons]
    rcases List.mem_cons.mp hy with h | h
    · rw [h]
      exact le_trans (le_max_left x z) (le_foldl_max_init (max x z) zs)
    · rcases List.mem_cons.mp h with h2 | h2
      · rw [h2]
        exact le_trans (le_max_right x z) (le_foldl_max_init (max x z) zs)
      · exact ih (max x z) y (List.mem_cons_of_mem (max x z) h2)

/-! ## Example inputs used by concrete theorems -/

/-- Token table for "new york city hall" (character offsets of the four
tokens), used by the dictionary-matching and adjacency-join scenarios. -/
def tokTable : CharSpanArray :=
  CharSpanArray.mk0 0 "new york city hall" [0, 4, 9, 14] [3, 8, 13, 18]

/-- The first-series token-span column `[[0,1)]` of the adjacency scenario. -/
def exFirst : TokenSpanArray := ⟨tokTable, [0], [1]⟩

/-- The second-series token-span column `[[2,3)]` of the adjacency scenario. -/
def exSecond : TokenSpanArray := ⟨tokTable, [2], [3]⟩

/-- Span array `["abc", [0,1)]`. -/
def exA3 : CharSpanArray := CharSpanArray.mk0 1 "abc" [0] [1]

/-- Span array `["abc", [1,2)]`: same text as `exA3`, different span. -/
def exB3 : CharSpanArray := CharSpanArray.mk0 2 "abc" [1] [2]

/-! ## Claims -/

/-- Claim C1 (code bug): on the token sequence new/york/city/hall with
dictionary rows ["new","york"] and ["new","york","city"] (padded to the
3-column dictionary layout), `extract_dict` returns only the span [0,2).
The claim (and the spec scenario) require both [0,2) and [0,3); the loop
`for match_len in range(1, max_entry_len)` never emits matches of a
dictionary entry whose length equals the number of dictionary columns. -/
theorem extract_dict_never_emits_full_length_entry :
    extract_dict [some "new", some "york", some "city", some "hall"]
        [[some "new", some "york", none], [some "new", some "york", some "city"]] =
      Except.ok [(0, 2)] := rfl

/-- Claim C2 (code bug): with first spans [[0,1)] and second spans [[2,3)],
`adjacent_join` with min_gap = max_gap = 1 returns no pair, although the
claim requires the pair (gap of one token between end of first and begin of
second).  The equijoin key is `second.begin_token + gap` where the intended
predicate needs `second.begin_token - gap`: the third conjunct shows the
join instead fires when the first span's end token is one PAST the second
span's begin token. -/
theorem adjacent_join_gap_sign_flipped :
    adjacent_join exFirst exSecond 1 1 = [] ∧
    adjacent_join exFirst exSecond 0 0 = [] ∧
    adjacent_join ⟨tokTable, [1], [3]⟩ ⟨tokTable, [2], [4]⟩ 1 1 = [((1, 3), (2, 4))] :=
  ⟨rfl, rfl, rfl⟩

/-- Claim C3 (code bug): array-vs-array `==` on `CharSpanArray` compares
`self.begin` with `self.begin` and `self.end` with `self.end`, so two
same-length arrays over the same target text compare elementwise equal even
where their spans differ: ["abc", [0,1)] == ["abc", [1,2)] yields [True],
although the claim requires [False]. -/
theorem eq_array_ignores_other_offsets :
    exA3.eq_array exB3 = Except.ok [true] ∧
    exA3.begins ≠ exB3.begins ∧
    exA3.target_text = exB3.target_text :=
  ⟨rfl, by decide, rfl⟩

/-- Claim C4 counterexample: `CharSpan("abc", 2, 1)` constructs successfully,
so "constructing with 0 <= end < begin raises" is false on the code. -/
theorem charspan_init_end_before_begin_accepted :
    CharSpan.init "abc" 2 1 = Except.ok ⟨"abc", 2, 1⟩ ∧
    (0 : Int) ≤ 1 ∧ (1 : Int) < 2 :=
  ⟨rfl, by decide, by decide⟩

/-- Claim C4 (amended): `CharSpan.__init__` succeeds exactly for the null
sentinel pair (-1, -1) and for pairs with begin >= 0, end >= 0 and
end <= len(text); it does NOT reject end < begin (nor begin > len(text)). -/
theorem charspan_init_ok_iff (text : String) (b e : Int) :
    (CharSpan.init text b e).isOk = true ↔
      ((b = NULL_OFFSET_VALUE ∧ e = NULL_OFFSET_VALUE) ∨
       (0 ≤ b ∧ 0 ≤ e ∧ e ≤ (text.length : Int))) := by
  unfold CharSpan.init NULL_OFFSET_VALUE
  split_ifs with h1 h2 h3 h4 h5 <;> simp [Except.isOk, Except.toBool] <;> omega

/-- Claim C5 counterexample: comparing two spans over the different target
texts "ab" and "cd" with `<` does not raise; it silently compares offsets
and returns True. -/
theorem lt_different_texts_counterexample :
    ((CharSpan.mk "ab" 0 1).lt_op (CmpOperand.span (CharSpan.mk "cd" 1 2))).isError = false ∧
    (CharSpan.mk "ab" 0 1).lt_op (CmpOperand.span (CharSpan.mk "cd" 1 2)) =
      CmpResult.bool true ∧
    "ab" ≠ "cd" := by
  refine ⟨rfl, rfl, by decide⟩

/-- Claim C5 (amended): `CharSpan.__lt__` and `CharSpanArray.__lt__` raise
only for operands that are neither spans nor span arrays; for span operands
with differing target texts they do not raise but silently compare offsets
(`self.end <= other.begin`, elementwise in the array case). -/
theorem lt_different_texts_compares_offsets (a b : CharSpan) (x y : CharSpanArray)
    (hab : a.target_text ≠ b.target_text) (hxy : x.target_text ≠ y.target_text) :
    (a.lt_op (CmpOperand.span b)).isError = false ∧
    a.lt_op (CmpOperand.span b) = CmpResult.bool (decide (a.end_ ≤ b.begin)) ∧
    (x.lt_op (CmpOperand.array y)).isError = false ∧
    x.lt_op (CmpOperand.array y) =
      CmpResult.mask (List.zipWith (fun e bg : Int => decide (e ≤ bg)) x.ends y.begins) :=
  ⟨rfl, rfl, rfl, rfl⟩

/-- Witness for claim C5's amended theorem at concrete spans over the texts
"ab" and "cd". -/
theorem lt_different_texts_compares_offsets_witness :
    (CharSpan.mk "ab" 0 1).target_text ≠ (CharSpan.mk "cd" 1 2).target_text ∧
    (CharSpanArray.mk0 1 "ab" [0] [1]).target_text ≠
      (CharSpanArray.mk0 2 "cd" [1] [2]).target_text ∧
    (((CharSpan.mk "ab" 0 1).lt_op (CmpOperand.span (CharSpan.mk "cd" 1 2))).isError = false ∧
     (CharSpan.mk "ab" 0 1).lt_op (CmpOperand.span (CharSpan.mk "cd" 1 2)) =
       CmpResult.bool (decide ((CharSpan.mk "ab" 0 1).end_ ≤ (CharSpan.mk "cd" 1 2).begin)) ∧
     (((CharSpanArray.mk0 1 "ab" [0] [1]).lt_op
        (CmpOperand.array (CharSpanArray.mk0 2 "cd" [1] [2]))).isError = false) ∧
     (CharSpanArray.mk0 1 "ab" [0] [1]).lt_op
        (CmpOperand.array (CharSpanArray.mk0 2 "cd" [1] [2])) =
       CmpResult.mask (List.zipWith (fun e bg : Int => decide (e ≤ bg))
         (CharSpanArray.mk0 1 "ab" [0] [1]).ends (CharSpanArray.mk0 2 "cd" [1] [2]).begins)) :=
  ⟨by decide, by decide,
   lt_different_texts_compares_offsets (CharSpan.mk "ab" 0 1) (CharSpan.mk "cd" 1 2)
     (CharSpanArray.mk0 1 "ab" [0] [1]) (CharSpanArray.mk0 2 "cd" [1] [2])
     (by decide) (by decide)⟩

/-- Claim C6: a single-element `__setitem__` strictly increases the version
counter, empties the equivalence cache and clears the memoized hash, so an
`equals` call right after the mutation recomputes structural equality from
the current contents; and an `equals` call that finds a cached entry whose
recorded version no longer matches the other array's version also recomputes
structural equality instead of returning the stale cached verdict. -/
theorem setitem_invalidates_caches_and_equals_recomputes
    (a o : CharSpanArray) (k : Nat) (v : Option CharSpan)
    (hid : (a.setitem k v).aid ≠ o.aid) :
    (a.setitem k v).version = a.version + 1 ∧
    a.version < (a.setitem k v).version ∧
    (a.setitem k v).equivalent_arrays = [] ∧
    (a.setitem k v).equiv_array_versions = [] ∧
    (a.setitem k v).hash_ = none ∧
    ((a.setitem k v).equals o).fst = structEqb (a.setitem k v) o ∧
    (∀ (b c : CharSpanArray) (ix : Nat), b.aid ≠ c.aid →
      b.equivalent_arrays.findIdx? (fun x => x = c.aid) = some ix →
      b.equiv_array_versions.getD ix 0 ≠ c.version →
      (b.equals c).fst = structEqb b c) := by
  refine ⟨?_, ?_, ?_, ?_, ?_, ?_, ?_⟩
  · cases v <;> rfl
  · cases v <;> exact Nat.lt_succ_self a.version
  · cases v <;> rfl
  · cases v <;> rfl
  · cases v <;> rfl
  · exact equals_of_empty_cache _ _ hid (by cases v <;> rfl)
  · intro b c ix h1 h2 h3
    exact equals_of_stale_entry b c ix h1 h2 h3

/-- Array `["xy", [0,1), [1,2)]` with object identity 1. -/
def exArr6 : CharSpanArray := CharSpanArray.mk0 1 "xy" [0, 1] [1, 2]

/-- A structurally equal copy of `exArr6` with object identity 2. -/
def exOther6 : CharSpanArray := CharSpanArray.mk0 2 "xy" [0, 1] [1, 2]

/-- Witness for claim C6's theorem: setting element 0 of `exArr6` to the
null span. -/
theorem setitem_invalidates_caches_and_equals_recomputes_witness :
    (exArr6.setitem 0 none).aid ≠ exOther6.aid ∧
    ((exArr6.setitem 0 none).version = exArr6.version + 1 ∧
     exArr6.version < (exArr6.setitem 0 none).version ∧
     (exArr6.setitem 0 none).equivalent_arrays = [] ∧
     (exArr6.setitem 0 none).equiv_array_versions = [] ∧
     (exArr6.setitem 0 none).hash_ = none ∧
     ((exArr6.setitem 0 none).equals exOther6).fst = structEqb (exArr6.setitem 0 none) exOther6 ∧
     (∀ (b c : CharSpanArray) (ix : Nat), b.aid ≠ c.aid →
       b.equivalent_arrays.findIdx? (fun x => x = c.aid) = some ix →
       b.equiv_array_versions.getD ix 0 ≠ c.version →
       (b.equals c).fst = structEqb b c)) :=
  ⟨by decide,
   setitem_invalidates_caches_and_equals_recomputes exArr6 exOther6 0 none (by decide)⟩

/-- Claim C7: concatenating the slices `[0, k)` and `[k, n)` of a span array
yields an array that `equals` (deep structural equality) the original. -/
theorem concat_slices_equals_original (a : CharSpanArray) (k cid sid1 sid2 : Nat)
    (hlen : a.begins.length = a.ends.length) (hk : k ≤ a.length) :
    (CharSpanArray.concat_same_type
        [a.getitem_slice 0 k sid1, a.getitem_slice k a.length sid2] cid).map
      (fun c => (c.equals a).fst) = Except.ok true := by
  have hb : (a.begins.take k) ++ ((a.begins.drop k).take (a.length - k) ++ []) = a.begins := by
    rw [List.append_nil]
    have h2 : a.length - k = (a.begins.drop k).length := by
      rw [List.length_drop]; rfl
    rw [h2, List.take_length, List.take_append_drop]
  have hEnds : (a.ends.take k) ++ ((a.ends.drop k).take (a.length - k) ++ []) = a.ends := by
    rw [List.append_nil]
    have h2 : a.length - k = (a.ends.drop k).length := by
      rw [List.length_drop]
      unfold CharSpanArray.length
      rw [hlen]
    rw [h2, List.take_length, List.take_append_drop]
  have h1 : CharSpanArray.concat_same_type
      [a.getitem_slice 0 k sid1, a.getitem_slice k a.length sid2] cid
      = Except.ok (CharSpanArray.mk0 cid a.target_text a.begins a.ends) := by
    simp only [CharSpanArray.concat_same_type, CharSpanArray.getitem_slice, CharSpanArray.mk0,
      List.all_cons, List.all_nil, beq_self_eq_true, Bool.and_self, if_true,
      List.map_cons, List.map_nil, List.flatten_cons, List.flatten_nil,
      List.drop_zero, Nat.sub_zero]
    rw [hb, hEnds]
  rw [h1]
  show Except.ok ((CharSpanArray.mk0 cid a.target_text a.begins a.ends).equals a).fst =
    Except.ok true
  by_cases hcid : (CharSpanArray.mk0 cid a.target_text a.begins a.ends).aid = a.aid
  · unfold CharSpanArray.equals
    rw [if_pos hcid]
  · rw [equals_of_empty_cache _ _ hcid rfl]
    unfold structEqb
    simp only [decide_eq_true_eq, Except.ok.injEq, decide_eq_true_iff]
    exact ⟨rfl, rfl, rfl⟩

/-- Array `["hello", [0,1), [1,2)]` used by the round-trip witness. -/
def exArr7 : CharSpanArray := CharSpanArray.mk0 3 "hello" [0, 1] [1, 2]

/-- Witness for claim C7's theorem: split `exArr7` at k = 1. -/
theorem concat_slices_equals_original_witness :
    exArr7.begins.length = exArr7.ends.length ∧
    1 ≤ exArr7.length ∧
    (CharSpanArray.concat_same_type
        [exArr7.getitem_slice 0 1 4, exArr7.getitem_slice 1 exArr7.length 5] 6).map
      (fun c => (c.equals exArr7).fst) = Except.ok true :=
  ⟨rfl, by decide, concat_slices_equals_original exArr7 1 6 4 5 rfl (by decide)⟩

/-- Claim C8: for spans over the same target text, `a < b` holds exactly
when `a.end <= b.begin`; for overlapping spans (neither end-before-begin
direction holds) both `a < b` and `b < a` are False, so the order is a
strict partial order, not a total one. -/
theorem lt_iff_end_le_begin (a b : CharSpan) (h : a.target_text = b.target_text) :
    (a.lt_op (CmpOperand.span b) = CmpResult.bool true ↔ a.end_ ≤ b.begin) ∧
    (¬ a.end_ ≤ b.begin → ¬ b.end_ ≤ a.begin →
      a.lt_op (CmpOperand.span b) = CmpResult.bool false ∧
      b.lt_op (CmpOperand.span a) = CmpResult.bool false) := by
  constructor
  · simp only [CharSpan.lt_op, CmpResult.bool.injEq, decide_eq_true_eq]
  · intro h1 h2
    constructor
    · simp only [CharSpan.lt_op, CmpResult.bool.injEq]
      exact decide_eq_false h1
    · simp only [CharSpan.lt_op, CmpResult.bool.injEq]
      exact decide_eq_false h2

/-- Witness for claim C8's theorem: the disjoint spans [0,1) and [2,3) over
the text "txt". -/
theorem lt_iff_end_le_begin_witness :
    (CharSpan.mk "txt" 0 1).target_text = (CharSpan.mk "txt" 2 3).target_text ∧
    (((CharSpan.mk "txt" 0 1).lt_op (CmpOperand.span (CharSpan.mk "txt" 2 3)) =
        CmpResult.bool true ↔ (CharSpan.mk "txt" 0 1).end_ ≤ (CharSpan.mk "txt" 2 3).begin) ∧
     (¬ (CharSpan.mk "txt" 0 1).end_ ≤ (CharSpan.mk "txt" 2 3).begin →
      ¬ (CharSpan.mk "txt" 2 3).end_ ≤ (CharSpan.mk "txt" 0 1).begin →
      (CharSpan.mk "txt" 0 1).lt_op (CmpOperand.span (CharSpan.mk "txt" 2 3)) =
        CmpResult.bool false ∧
      (CharSpan.mk "txt" 2 3).lt_op (CmpOperand.span (CharSpan.mk "txt" 0 1)) =
        CmpResult.bool false)) :=
  ⟨rfl, lt_iff_end_le_begin (CharSpan.mk "txt" 0 1) (CharSpan.mk "txt" 2 3) rfl⟩

/-- The non-empty span column `["ab", [(-1,-1), (1,2)]]`: a null span mixed
with a real span (such a column is reachable via `__setitem__(0, None)`). -/
def exNull9 : CharSpanArray := CharSpanArray.mk0 8 "ab" [-1, 1] [-1, 2]

/-- Claim C9 counterexample: on the non-empty column `exNull9` the "sum"
reduction and `combine_agg` do not return a span at all: the minimum begin
is the null sentinel -1 while the maximum end is 2, which the `CharSpan`
constructor rejects, so both raise `ValueError`. -/
theorem sum_reduce_null_span_counterexample :
    (exNull9.reduce "sum").isOk = false ∧
    (combine_agg (AggArg.charSeries exNull9)).isOk = false ∧
    exNull9.begins ≠ [] ∧ exNull9.ends ≠ [] :=
  ⟨rfl, rfl, by decide, by decide⟩

/-- Claim C9 (amended): on a non-empty span column all of whose offsets are
non-null and in bounds (every begin >= 0, every end between 0 and the text
length), the "sum" reduction and the `combine_agg` aggregate agree and
return the single span over the shared target text from the minimum begin
offset to the maximum end offset; a column containing a null span mixed
with a real span instead raises from the constructor validation. -/
theorem sum_reduce_and_combine_agg_min_max (a : CharSpanArray)
    (hb : a.begins ≠ []) (he : a.ends ≠ [])
    (hbpos : ∀ x ∈ a.begins, 0 ≤ x)
    (hepos : ∀ x ∈ a.ends, 0 ≤ x)
    (helen : ∀ x ∈ a.ends, x ≤ (a.target_text.length : Int)) :
    ∃ s : CharSpan,
      a.reduce "sum" = Except.ok s ∧
      combine_agg (AggArg.charSeries a) = Except.ok (Sum.inl s) ∧
      s.target_text = a.target_text ∧
      s.begin ∈ a.begins ∧ (∀ x ∈ a.begins, s.begin ≤ x) ∧
      s.end_ ∈ a.ends ∧ (∀ x ∈ a.ends, x ≤ s.end_) := by
  obtain ⟨b0, bs, hB⟩ := List.exists_cons_of_ne_nil hb
  obtain ⟨e0, es, hE⟩ := List.exists_cons_of_ne_nil he
  have hmemb : bs.foldl min b0 ∈ a.begins := hB ▸ foldl_min_mem b0 bs
  have hmeme : es.foldl max e0 ∈ a.ends := hE ▸ foldl_max_mem e0 es
  have h0b : 0 ≤ bs.foldl min b0 := hbpos _ hmemb
  have h0e : 0 ≤ es.foldl max e0 := hepos _ hmeme
  have hle : es.foldl max e0 ≤ (a.target_text.length : Int) := helen _ hmeme
  have hinit : CharSpan.init a.target_text (bs.foldl min b0) (es.foldl max e0) =
      Except.ok ⟨a.target_text, bs.foldl min b0, es.foldl max e0⟩ := by
    unfold CharSpan.init NULL_OFFSET_VALUE
    rw [if_neg (by omega), if_neg (by omega), if_neg (by omega), if_neg (by omega)]
  refine ⟨⟨a.target_text, bs.foldl min b0, es.foldl max e0⟩, ?_, ?_, rfl, ?_, ?_, ?_, ?_⟩
  · unfold CharSpanArray.reduce
    rw [if_pos rfl, hB, hE]
    simp only [np_min, np_max]
    rw [hinit]
  · simp only [combine_agg]
    rw [hB, hE]
    simp only [np_min, np_max]
    rw [hinit]
  · exact hmemb
  · intro x hx
    rw [hB] at hx
    exact foldl_min_le b0 bs x hx
  · exact hmeme
  · intro x hx
    rw [hE] at hx
    exact foldl_max_le e0 es x hx

/-- The span column `[[0,2), [5,7)]` over "0123456789". -/
def exArr9 : CharSpanArray := CharSpanArray.mk0 7 "0123456789" [0, 5] [2, 7]

/-- Witness for claim C9's amended theorem on `exArr9` (the combine
scenario: spans [0,2) and [5,7) combine to [0,7)). -/
theorem sum_reduce_and_combine_agg_min_max_witness :
    exArr9.begins ≠ [] ∧ exArr9.ends ≠ [] ∧
    (∀ x ∈ exArr9.begins, (0 : Int) ≤ x) ∧
    (∀ x ∈ exArr9.ends, (0 : Int) ≤ x) ∧
    (∀ x ∈ exArr9.ends, x ≤ (exArr9.target_text.length : Int)) ∧
    (∃ s : CharSpan,
      exArr9.reduce "sum" = Except.ok s ∧
      combine_agg (AggArg.charSeries exArr9) = Except.ok (Sum.inl s) ∧
      s.target_text = exArr9.target_text ∧
      s.begin ∈ exArr9.begins ∧ (∀ x ∈ exArr9.begins, s.begin ≤ x) ∧
      s.end_ ∈ exArr9.ends ∧ (∀ x ∈ exArr9.ends, x ≤ s.end_)) :=
  ⟨by decide, by decide, by decide, by decide, by decide,
   sum_reduce_and_combine_agg_min_max exArr9 (by decide) (by decide)
     (by decide) (by decide) (by decide)⟩

/-- Claim C10: equality against an operand that is neither a span nor a
span array returns False without raising at the scalar level
(`CharSpan.__eq__`), but raises at the column level
(`CharSpanArray.__eq__`). -/
theorem eq_incompatible_scalar_false_array_raises (s : CharSpan) (a : CharSpanArray) :
    s.eq_op CmpOperand.other = CmpResult.bool false ∧
    (a.eq_op CmpOperand.other).isError = true :=
  ⟨rfl, rfl⟩
